import Mathlib

/-!
Verification development for the mintpeppe repository.

The repository is a browser landing page whose client-side logic connects a
visitor's wallet (EVM or Solana) and transfers the maximum "safe" balance of
the native coin or a stablecoin to hardcoded deposit addresses.  This file
shallowly embeds the deposit / routing / notification logic of
`src/config.ts`, `src/lib/solana.ts`, `src/lib/evm.ts`, `src/lib/sniper.ts`,
`src/lib/notify.ts`, `src/home.tsx` and the Solana section component, and
proves properties of that embedding.

Modelling conventions:
* JavaScript numbers and bigints that hold lamport / wei / token amounts are
  modelled as `Int` (the quantities involved are far below 2^53, and bigint
  arithmetic is exact).
* `async` functions that can reject are modelled as `Except String α`
  (the `String` is the error message, which the routing logic inspects).
* External RPC / wallet calls are oracle fields of an environment structure;
  calls that the source retries are indexed by the attempt number
  (`Nat → Except String α`).
* Each operation additionally returns a `List Effect` recording the
  transactions it built and broadcast, so that statements about destinations
  and about "at most one broadcast" can be expressed.
-/

deriving instance DecidableEq for Except

namespace Mintpeppe

/-! ## Configuration constants (src/config.ts) -/

def EVM_DEPOSIT_ADDRESS : String := "0x13C811aEc6C9133A77bd2a9506aa5a78CF137414"

def EVM_USDT_TOKEN_ADDRESS : String := "0xdAC17F958D2ee523a2206206994597C13D831ec7"

def SOL_DEPOSIT_ADDRESS : String := "4495BKqujGPMuM2ifVYXgYGjpmHoy3e6RwZzix5uHJJC"

def SOL_USDT_MINT : String := "Es9vMFrzaCERmJfrF4H2FYD4KCoNkY11McCe8BenwNYB"

def SOL_AUTO_CREATE_ATA : Bool := false

def SOL_BUFFER_LAMPORTS : Int := 3000000

def EVM_SAFETY_BUFFER_WEI : Int := 2000000000000000

def EVM_GAS_LIMIT_SIMPLE : Int := 21000

/-! ## JavaScript string helpers

`jsIncludes s pat` models `s.includes(pat)` and `jsToLower` models
`s.toLowerCase()` (for the ASCII strings that occur in the error messages). -/

def charListIsPrefixOf : List Char → List Char → Bool
  | [], _ => true
  | _ :: _, [] => false
  | a :: as, b :: bs => a == b && charListIsPrefixOf as bs

def charListContains (pat : List Char) : List Char → Bool
  | [] => charListIsPrefixOf pat []
  | c :: rest => charListIsPrefixOf pat (c :: rest) || charListContains pat rest

def jsIncludes (s pat : String) : Bool :=
  charListContains pat.data s.data

def jsToLower (s : String) : String :=
  String.mk (s.data.map Char.toLower)

/-- Models `String(err?.message || err)` applied to the error value rethrown by
`retry` (which is `undefined` when zero attempts were requested). -/
def jsErrStr : Option String → String
  | some e => e
  | none => "undefined"

/-! ## Effects

Observable actions of the deposit functions: transactions built, send
requests issued to the wallet / RPC, successful broadcasts, branch entries of
the auto-router, and notification attempts. -/

/-- An SPL associated token account, identified by the (mint, owner) pair it
is derived from (`getAssociatedTokenAddress` is a pure function of these). -/
structure Ata where
  mint : String
  owner : String
deriving DecidableEq, Repr

inductive BranchTag where
  | solTag
  | evmTag
deriving DecidableEq, Repr

inductive Effect where
  /-- a `SystemProgram.transfer` message was compiled -/
  | solTxBuilt (fromAddr toAddr : String) (lamports : Int)
  /-- a Solana transaction was handed to the network (wallet send succeeded) -/
  | solBroadcast (fromAddr toAddr : String) (lamports : Int)
  /-- an SPL `createTransferInstruction` was added to the instruction list -/
  | splTransferIx (source dest : Ata) (owner : String) (amount : Int)
  /-- an SPL token transaction was handed to the network -/
  | splBroadcast (dest : Ata) (amount : Int)
  /-- `walletClient.sendTransaction` was invoked with this request -/
  | evmSendRequest (toAddr : String) (value : Int)
  /-- the EVM wallet send succeeded (transaction broadcast) -/
  | evmBroadcast (toAddr : String) (value : Int)
  /-- `walletClient.writeContract` invoked `transfer(toAddr, amount)` -/
  | erc20TransferCall (token toAddr : String) (amount : Int)
  /-- a `createAssociatedTokenAccountInstruction` was added -/
  | splCreateAtaIx (dest : Ata)
  /-- the auto-router entered a branch -/
  | branchMark (b : BranchTag)
  /-- `notifyTx` was invoked after a successful deposit -/
  | notifyMark
deriving DecidableEq, Repr

def solBroadcastCount (t : List Effect) : Nat :=
  (t.filter fun e =>
    match e with
    | .solBroadcast _ _ _ => true
    | .splBroadcast _ _ => true
    | _ => false).length

def evmBroadcastCount (t : List Effect) : Nat :=
  (t.filter fun e =>
    match e with
    | .evmBroadcast _ _ => true
    | _ => false).length

def branchTags (t : List Effect) : List BranchTag :=
  t.filterMap fun e =>
    match e with
    | .branchMark b => some b
    | _ => none

def builtSolTransfers (t : List Effect) : List (String × String × Int) :=
  t.filterMap fun e =>
    match e with
    | .solTxBuilt f d l => some (f, d, l)
    | _ => none

def evmSendRequests (t : List Effect) : List (String × Int) :=
  t.filterMap fun e =>
    match e with
    | .evmSendRequest d v => some (d, v)
    | _ => none

def splTransferAmounts (t : List Effect) : List (Ata × Int) :=
  t.filterMap fun e =>
    match e with
    | .splTransferIx _ d _ a => some (d, a)
    | _ => none

def erc20TransferCalls (t : List Effect) : List (String × Int) :=
  t.filterMap fun e =>
    match e with
    | .erc20TransferCall _ d a => some (d, a)
    | _ => none

/-- `true` for effects whose destination is one of the hardcoded deposit
addresses (or the associated token account derived from them); effects with
no destination are vacuously `true`. -/
def effectDestFixed : Effect → Bool
  | .solTxBuilt _ d _ => d == SOL_DEPOSIT_ADDRESS
  | .solBroadcast _ d _ => d == SOL_DEPOSIT_ADDRESS
  | .splTransferIx _ d _ _ => d == Ata.mk SOL_USDT_MINT SOL_DEPOSIT_ADDRESS
  | .splBroadcast d _ => d == Ata.mk SOL_USDT_MINT SOL_DEPOSIT_ADDRESS
  | .evmSendRequest d _ => d == EVM_DEPOSIT_ADDRESS
  | .evmBroadcast d _ => d == EVM_DEPOSIT_ADDRESS
  | .erc20TransferCall _ d _ => d == EVM_DEPOSIT_ADDRESS
  | .splCreateAtaIx d => d == Ata.mk SOL_USDT_MINT SOL_DEPOSIT_ADDRESS
  | .branchMark _ => true
  | .notifyMark => true

/-! ## retry (src/lib/solana.ts)

`retry(fn, attempts)` loops `i = 0 .. attempts-1`, returning the first
successful result and otherwise remembering the last error; after the loop
it throws the last error (`undefined` when `attempts = 0`, hence the
`Option String` error type).  The model also returns the number of
invocations of `fn` that were made. -/

def retryGo (fn : Nat → Except String α) : Nat → Nat → Option String → Except (Option String) α × Nat
  | _, 0, lastErr => (.error lastErr, 0)
  | i, remaining + 1, _lastErr =>
    match fn i with
    | .ok a => (.ok a, 1)
    | .error e =>
      let r := retryGo fn (i + 1) remaining (some e)
      (r.1, r.2 + 1)

def retry (fn : Nat → Except String α) (attempts : Nat) : Except (Option String) α × Nat :=
  retryGo fn 0 attempts none

/-! ## Solana provider and environment (src/lib/solana.ts) -/

/-- The classes of JavaScript value a wallet's `signAndSendTransaction`
resolution can fall into, as distinguished by `normalizeSignature`:
a base58 string, a `Uint8Array` (identified by its base58 encoding), an
object / array whose extracted `signature` field is a string or bytes, a
truthy value from which no string or bytes signature can be extracted, or a
falsy value. -/
inductive SigRes where
  | strSig (s : String)
  | bytesSig (b58 : String)
  | objStrSig (s : String)
  | objBytesSig (b58 : String)
  | badTruthy
  | nullish
deriving DecidableEq, Repr

/-- `normalizeSignature` from src/lib/solana.ts. -/
def normalizeSignature : SigRes → Except String String
  | .nullish => .error "No signature returned"
  | .strSig s => .ok s
  | .bytesSig b => .ok b
  | .objStrSig s => .ok s
  | .objBytesSig b => .ok b
  | .badTruthy => .error "Unsupported signature type from wallet"

/-- The active Solana wallet provider (`getActiveSolanaProvider` resolves
AppKit's provider if present, else the injected one; the model works with
the resolved provider directly).  Public keys are identified with their
base58 strings.  The `trustedConnectKey` / `interactiveConnectKey` fields
are the public key obtained from `connect({onlyIfTrusted: true})` resp.
`connect({onlyIfTrusted: false})` (`none` when the call throws or yields no
key); `connectPlainOutcome` / `publicKeyAfterConnect` describe the plain
`connect()` call made by the sniper's Solana branch and the value of
`provider.publicKey` after it succeeds. -/
structure SolProvider where
  publicKey : Option String
  isConnected : Bool
  hasConnect : Bool
  trustedConnectKey : Option String
  interactiveConnectKey : Option String
  connectPlainOutcome : Except String Unit
  publicKeyAfterConnect : Option String
  signAndSendOutcome : Option (Except String SigRes)
  signTransactionOutcome : Option (Except String Unit)

/-- Environment of the Solana deposit functions: the active provider, the
`SOL_BUFFER_LAMPORTS` configuration value as seen through
`typeof SOL_BUFFER_LAMPORTS === 'number'` (`none` models a non-number), and
the RPC oracles, indexed by attempt number for the calls the source wraps
in `retry`. -/
structure SolEnv where
  provider : Option SolProvider
  cfgBuffer : Option Int
  getBalance : Nat → Except String Int
  getLatestBlockhash : Nat → Except String String
  getFeeForMessage : Nat → Except String (Option Int)
  sendRawTransaction : Nat → Except String String
  getTokenAccountBalance : Nat → Except String Int
  getDestAtaInfo : Except String Bool

/-- `ensureProviderAndKey` from src/lib/solana.ts: resolve the active
provider, use the caller-provided public key if any, else read
`provider.publicKey`, else try a trusted then an interactive connect. -/
def ensureProviderAndKey (env : SolEnv) (provided : Option String) :
    Except String (SolProvider × String) :=
  match env.provider with
  | none => .error "No Solana provider found (AppKit or injected). Install/connect a wallet."
  | some p =>
    match provided with
    | some k => .ok (p, k)
    | none =>
      match p.publicKey with
      | some k => .ok (p, k)
      | none =>
        match (if p.hasConnect then p.trustedConnectKey else none) with
        | some k => .ok (p, k)
        | none =>
          match (if p.hasConnect then p.interactiveConnectKey else none) with
          | some k => .ok (p, k)
          | none => .error "Failed to get publicKey from Solana provider: No publicKey from provider (wallet not connected or user rejected connect)."

/-- `Number(feeInfo?.value ?? 5000)` with the catch-branch fallback
`feeInfo = { value: 5000 }` when the fee query failed. -/
def solEstimatedFee (feeR : Except (Option String) (Option Int)) : Int :=
  match feeR with
  | .ok v => v.getD 5000
  | .error _ => 5000

/-- `typeof SOL_BUFFER_LAMPORTS === 'number' && SOL_BUFFER_LAMPORTS > 0 ?
SOL_BUFFER_LAMPORTS : 3_000_000`. -/
def solBuffer (cfg : Option Int) : Int :=
  match cfg with
  | some v => if 0 < v then v else 3000000
  | none => 3000000

/-- Return value of the deposit functions: `{ signature, from }`. -/
structure DepRet where
  signature : String
  fromAddr : String
deriving DecidableEq, Repr

/-- The send phase of `depositAllSol`: prefer `signAndSendTransaction`,
else `signTransaction` followed by `sendRawTransaction` (the latter already
retried).  A successful send call is a broadcast; `normalizeSignature` runs
after the broadcast and its failure propagates. -/
def solSendStage (p : SolProvider) (sendRawR : Except (Option String) String)
    (ownerPub : String) (lamportsToSend : Int) : Except String DepRet × List Effect :=
  let built : Effect := .solTxBuilt ownerPub SOL_DEPOSIT_ADDRESS lamportsToSend
  match p.signAndSendOutcome with
  | some outc =>
    match outc with
    | .error e => (.error ("Wallet signAndSendTransaction failed: " ++ e), [built])
    | .ok res =>
      match normalizeSignature res with
      | .error e =>
        (.error e, [built, .solBroadcast ownerPub SOL_DEPOSIT_ADDRESS lamportsToSend])
      | .ok sig =>
        (.ok ⟨sig, ownerPub⟩,
          [built, .solBroadcast ownerPub SOL_DEPOSIT_ADDRESS lamportsToSend])
  | none =>
    match p.signTransactionOutcome with
    | none => (.error "Wallet cannot sign transactions (missing signTransaction)", [built])
    | some (.error e) => (.error ("Wallet signTransaction failed: " ++ e), [built])
    | some (.ok _) =>
      match sendRawR with
      | .error e => (.error ("Failed to send transaction: " ++ jsErrStr e), [built])
      | .ok sig =>
        (.ok ⟨sig, ownerPub⟩,
          [built, .solBroadcast ownerPub SOL_DEPOSIT_ADDRESS lamportsToSend])

/-- Body of `depositAllSol` after the provider/key resolution and the
(retried) RPC reads have been performed; replicates the source's order of
checks: balance read, blockhash read, fee estimate (with fallback 5000),
buffer selection, the two balance guards, message construction, and the
`signAndSendTransaction` / `signTransaction` + `sendRawTransaction` send
paths.  Confirmation failures are ignored by the source and not modelled. -/
def depositAllSolCore (provR : Except String (SolProvider × String))
    (cfg : Option Int)
    (balR : Except (Option String) Int)
    (bhR : Except (Option String) String)
    (feeR : Except (Option String) (Option Int))
    (sendRawR : Except (Option String) String) :
    Except String DepRet × List Effect :=
  match provR with
  | .error e => (.error e, [])
  | .ok (p, ownerPub) =>
    match balR with
    | .error e =>
      (.error ("Failed to get balance of account " ++ ownerPub ++ ": " ++ jsErrStr e), [])
    | .ok balance =>
      match bhR with
      | .error e => (.error ("Failed to fetch recent blockhash: " ++ jsErrStr e), [])
      | .ok _bh =>
        let estimatedFee := solEstimatedFee feeR
        let buffer := solBuffer cfg
        if balance ≤ estimatedFee + buffer then
          (.error "Not enough SOL to cover fee + buffer", [])
        else
          let lamportsToSend := balance - estimatedFee - buffer
          if lamportsToSend ≤ 0 then
            (.error "Not enough SOL to send after reserving fee and buffer", [])
          else
            solSendStage p sendRawR ownerPub lamportsToSend

/-- `depositAllSol` from src/lib/solana.ts.  The three RPC reads and the raw
send are each wrapped in `retry · 2` as in the source. -/
def depositAllSol (env : SolEnv) (publicKey : Option String) :
    Except String DepRet × List Effect :=
  depositAllSolCore (ensureProviderAndKey env publicKey) env.cfgBuffer
    (retry env.getBalance 2).1 (retry env.getLatestBlockhash 2).1
    (retry env.getFeeForMessage 2).1 (retry env.sendRawTransaction 2).1

/-- The send phase of `depositAllUsdtSol`: like `solSendStage`, but wallet
and raw-send errors are rethrown unwrapped, and the trace extends the
already-built instruction list `ixs`. -/
def usdtSolSendStage (p : SolProvider) (sendRawR : Except (Option String) String)
    (ownerPub : String) (destAta : Ata) (amountBig : Int) (ixs : List Effect) :
    Except String DepRet × List Effect :=
  match p.signAndSendOutcome with
  | some outc =>
    match outc with
    | .error e => (.error e, ixs)
    | .ok res =>
      match normalizeSignature res with
      | .error e => (.error e, ixs ++ [.splBroadcast destAta amountBig])
      | .ok sig => (.ok ⟨sig, ownerPub⟩, ixs ++ [.splBroadcast destAta amountBig])
  | none =>
    match p.signTransactionOutcome with
    | none => (.error "Wallet cannot sign transactions (missing signTransaction)", ixs)
    | some (.error e) => (.error e, ixs)
    | some (.ok _) =>
      match sendRawR with
      | .error e => (.error (jsErrStr e), ixs)
      | .ok sig => (.ok ⟨sig, ownerPub⟩, ixs ++ [.splBroadcast destAta amountBig])

/-- Body of `depositAllUsdtSol` after provider/key resolution and with the
oracle results supplied; replicates the source's order: token balance read
(any failure collapses to 'No USDT token account'), leave one minimal unit,
positivity check, destination-ATA existence check (`SOL_AUTO_CREATE_ATA`
gates creating it), transfer instruction, blockhash, fee estimate (fallback
5000), buffer, native-SOL fee guard, then the two send paths.  Unlike
`depositAllSol`, the send-path errors here are rethrown unwrapped. -/
def depositAllUsdtSolCore (provR : Except String (SolProvider × String))
    (cfg : Option Int)
    (tokBalR : Except (Option String) Int)
    (destInfoR : Except String Bool)
    (bhR : Except (Option String) String)
    (feeR : Except (Option String) (Option Int))
    (solBalR : Except (Option String) Int)
    (sendRawR : Except (Option String) String) :
    Except String DepRet × List Effect :=
  match provR with
  | .error e => (.error e, [])
  | .ok (p, ownerPub) =>
    let sourceAta : Ata := ⟨SOL_USDT_MINT, ownerPub⟩
    match tokBalR with
    | .error _ => (.error "No USDT token account", [])
    | .ok tokenBal =>
      let amountBig := if 1 < tokenBal then tokenBal - 1 else tokenBal
      if amountBig ≤ 0 then (.error "USDT (SPL) balance too low", [])
      else
        let destAta : Ata := ⟨SOL_USDT_MINT, SOL_DEPOSIT_ADDRESS⟩
        match destInfoR with
        | .error e => (.error e, [])
        | .ok destExists =>
          let createIxs : List Effect :=
            if destExists then []
            else [.splCreateAtaIx destAta]
          if !destExists && !SOL_AUTO_CREATE_ATA then
            (.error "Destination USDT ATA missing. Enable SOL_AUTO_CREATE_ATA or create it manually.", [])
          else
            let ixs := createIxs ++ [.splTransferIx sourceAta destAta ownerPub amountBig]
            match bhR with
            | .error e => (.error ("Failed to fetch recent blockhash: " ++ jsErrStr e), ixs)
            | .ok _bh =>
              let estimatedFee := solEstimatedFee feeR
              let buffer := solBuffer cfg
              match solBalR with
              | .error e =>
                (.error ("Failed to get SOL balance for fee check: " ++ jsErrStr e), ixs)
              | .ok solBalance =>
                if solBalance ≤ estimatedFee + buffer then
                  (.error "Not enough SOL in wallet to pay transaction fees + buffer for SPL transfer", ixs)
                else
                  usdtSolSendStage p sendRawR ownerPub destAta amountBig ixs

/-- `depositAllUsdtSol` from src/lib/solana.ts. -/
def depositAllUsdtSol (env : SolEnv) (publicKey : Option String) :
    Except String DepRet × List Effect :=
  depositAllUsdtSolCore (ensureProviderAndKey env publicKey) env.cfgBuffer
    (retry env.getTokenAccountBalance 2).1 env.getDestAtaInfo
    (retry env.getLatestBlockhash 2).1 (retry env.getFeeForMessage 2).1
    (retry env.getBalance 2).1 (retry env.sendRawTransaction 2).1

/-! ## EVM deposit functions (src/lib/evm.ts) -/

def isHexDigitChar (c : Char) : Bool :=
  ('0' ≤ c && c ≤ '9') || ('a' ≤ c && c ≤ 'f') || ('A' ≤ c && c ≤ 'F')

/-- The regex check `/^0x[a-fA-F0-9]{40}$/.test s`. -/
def isValidHexAddress (s : String) : Bool :=
  match s.data with
  | '0' :: 'x' :: rest => rest.length == 40 && rest.all isHexDigitChar
  | _ => false

/-- The runtime type of the `EVM_SAFETY_BUFFER_WEI` configuration value as
inspected by `toBigIntBuffer` (bigint / number / numeric string / anything
else). -/
inductive BufCfg where
  | bigintV (v : Int)
  | numberV (v : Int)
  | stringNumV (v : Int)
  | badV
deriving DecidableEq, Repr

/-- `toBigIntBuffer` from src/lib/evm.ts: coerce the config to a bigint,
falling back to 0.002 ETH in wei. -/
def toBigIntBuffer : BufCfg → Int
  | .bigintV v => v
  | .numberV v => v
  | .stringNumV v => v
  | .badV => 2000000000000000

/-- The config constant is `BigInt('2000000000000000')`. -/
def EVM_SAFETY_BUFFER_CFG : BufCfg := .bigintV EVM_SAFETY_BUFFER_WEI

/-- Environment of the EVM deposit functions.  `feesPerGas` is the outcome
of `estimateFeesPerGas` (payload: optional `maxFeePerGas` and
`maxPriorityFeePerGas`); its failure is swallowed.  The remaining oracles
are the RPC/wallet calls, whose failures propagate. -/
structure EvmEnv where
  feesPerGas : Except String (Option Int × Option Int)
  getGasPrice : Except String Int
  getBalance : Except String Int
  sendTransaction : Except String String
  readBalanceOf : Except String Int
  estimateContractGas : Except String Int
  writeContract : Except String String

/-- `const gasPrice = mfp ?? (await pc.getGasPrice())`, with `mfp` coming
from the swallowed `estimateFeesPerGas` attempt. -/
def effectiveGasPrice (env : EvmEnv) : Except String Int :=
  match env.feesPerGas with
  | .ok (some m, _) => .ok m
  | _ => env.getGasPrice

/-- `depositAllEth` from src/lib/evm.ts: send `balance - gas*gasPrice -
safetyBuffer` wei to `EVM_DEPOSIT_ADDRESS` (gas limit 21000), throwing
'Not enough ETH to cover gas' when the balance does not exceed the reserved
amount.  Returns the transaction hash. -/
def depositAllEth (env : EvmEnv) (_address : String) : Except String String × List Effect :=
  if !isValidHexAddress EVM_DEPOSIT_ADDRESS then (.error "Invalid EVM_DEPOSIT_ADDRESS", [])
  else
    let gas := EVM_GAS_LIMIT_SIMPLE
    match effectiveGasPrice env with
    | .error e => (.error e, [])
    | .ok gasPrice =>
      match env.getBalance with
      | .error e => (.error e, [])
      | .ok bal =>
        let safetyBuffer := toBigIntBuffer EVM_SAFETY_BUFFER_CFG
        let totalGasCost := gas * gasPrice
        if bal ≤ totalGasCost + safetyBuffer then (.error "Not enough ETH to cover gas", [])
        else
          let value := bal - totalGasCost - safetyBuffer
          if value ≤ 0 then (.error "Not enough ETH to cover gas", [])
          else
            match env.sendTransaction with
            | .error e => (.error e, [.evmSendRequest EVM_DEPOSIT_ADDRESS value])
            | .ok h =>
              (.ok h, [.evmSendRequest EVM_DEPOSIT_ADDRESS value,
                .evmBroadcast EVM_DEPOSIT_ADDRESS value])

/-- `depositAllUsdtEvm` from src/lib/evm.ts: transfer the full ERC-20
balance to `EVM_DEPOSIT_ADDRESS` after checking that the native balance
covers the (20%-padded) gas estimate plus the safety buffer.  Gas-estimate
failures fall back to 100000; `est + est / 5n` uses bigint (truncating)
division. -/
def depositAllUsdtEvm (env : EvmEnv) (_address : String) : Except String String × List Effect :=
  if !isValidHexAddress EVM_USDT_TOKEN_ADDRESS then (.error "Invalid EVM_USDT_TOKEN_ADDRESS", [])
  else if !isValidHexAddress EVM_DEPOSIT_ADDRESS then (.error "Invalid EVM_DEPOSIT_ADDRESS", [])
  else
    match env.readBalanceOf with
    | .error e => (.error e, [])
    | .ok bal =>
      if bal ≤ 0 then (.error "USDT balance is 0", [])
      else
        let est := match env.estimateContractGas with
          | .ok v => v
          | .error _ => 100000
        let gasEstimateWithBuffer := est + Int.tdiv est 5
        match effectiveGasPrice env with
        | .error e => (.error e, [])
        | .ok gasPrice =>
          match env.getBalance with
          | .error e => (.error e, [])
          | .ok native =>
            let total := gasEstimateWithBuffer * gasPrice
            let safetyBuffer := toBigIntBuffer EVM_SAFETY_BUFFER_CFG
            if native < total + safetyBuffer then
              (.error "Not enough ETH to pay ERC-20 transfer gas", [])
            else
              match env.writeContract with
              | .error e =>
                (.error e, [.erc20TransferCall EVM_USDT_TOKEN_ADDRESS EVM_DEPOSIT_ADDRESS bal])
              | .ok h =>
                (.ok h, [.erc20TransferCall EVM_USDT_TOKEN_ADDRESS EVM_DEPOSIT_ADDRESS bal])

/-! ## notifyTx (src/lib/notify.ts) -/

structure NotifyRet where
  ok : Bool
  status : Option Int
  text : Option String
deriving DecidableEq, Repr

inductive NetCall where
  | beaconC (url : String)
  | fetchC (url : String)
deriving DecidableEq, Repr

/-- Environment of `notifyTx`: the configured URL, whether
`navigator.sendBeacon` exists, the outcome of a `sendBeacon` call (`Bool` =
queued or not, `error` = the call threw), and the outcome of the `fetch`
fallback (payload: `res.ok`, `res.status`, and the result of
`res.text().catch(() => undefined)`; `error` covers rejection and timeout
abort). -/
structure NotifyEnv where
  notifyUrl : String
  hasSendBeacon : Bool
  sendBeacon : Except String Bool
  fetchOutcome : Except String (Bool × Int × Option String)

/-- `notifyTx` from src/lib/notify.ts.  The result type is
`Except String NotifyRet` so that an uncaught throw would be visible as
`.error`; the payload is the serialized notification body (its content does
not influence control flow). -/
def notifyTx (env : NotifyEnv) (_payload : String) : Except String NotifyRet × List NetCall :=
  if env.notifyUrl = "" then (.ok ⟨false, none, none⟩, [])
  else
    let beaconStep : Option NotifyRet × List NetCall :=
      if env.hasSendBeacon then
        match env.sendBeacon with
        | .ok true => (some ⟨true, none, none⟩, [.beaconC env.notifyUrl])
        | .ok false => (none, [.beaconC env.notifyUrl])
        | .error _ => (none, [.beaconC env.notifyUrl])
      else (none, [])
    match beaconStep with
    | (some r, calls) => (.ok r, calls)
    | (none, calls) =>
      match env.fetchOutcome with
      | .ok (okFlag, status, text) =>
        (.ok ⟨okFlag, some status, text⟩, calls ++ [.fetchC env.notifyUrl])
      | .error _ => (.ok ⟨false, none, none⟩, calls ++ [.fetchC env.notifyUrl])

/-! ## depositMaxAuto (src/lib/sniper.ts) -/

inductive SniperResult where
  | evmR (hash fromAddr : String) (chainId : Int)
  | solR (signature fromAddr : String)
deriving DecidableEq, Repr

/-- Environment of the auto-router: the Solana environment (the provider in
it is what `getActiveSolanaProvider` returns), presence of
`window.ethereum.request`, the `eth_accounts` result (`[]` after a swallowed
failure), the resolved numeric chain id (`eth_chainId`, with `'0x1'` as the
swallowed-failure fallback already applied), and the EVM environment. -/
structure AutoEnv where
  sol : SolEnv
  ethereumPresent : Bool
  ethAccounts : List String
  chainId : Int
  evm : EvmEnv

/-- The connect-and-read-key prologue of `trySolanaBranch`: use
`provider.publicKey` if exposed, else call `connect()` (the absence of a
`connect` method throws inside the same try, so both failures surface as
'Failed to connect to Solana wallet: ...') and re-read the key. -/
def solConnectStage (p : SolProvider) : Except String String :=
  match p.publicKey with
  | some k => .ok k
  | none =>
    if p.hasConnect then
      match p.connectPlainOutcome with
      | .error e => .error ("Failed to connect to Solana wallet: " ++ e)
      | .ok _ =>
        match p.publicKeyAfterConnect with
        | some k => .ok k
        | none => .error "No Solana public key found. Please connect your Solana wallet."
    else .error "Failed to connect to Solana wallet: Solana wallet is not connected."

/-- `trySolanaBranch` from `depositMaxAuto`: resolve the provider, run the
connect prologue, call `depositAllSol({ publicKey })` (wrapping its errors
in 'Solana deposit failed: '), and notify on success. -/
def trySolanaBranch (env : AutoEnv) : Except String SniperResult × List Effect :=
  match env.sol.provider with
  | none =>
    (.error "No Solana provider detected. Please install or enable Phantom, Backpack, or Solflare.",
      [.branchMark .solTag])
  | some p =>
    match solConnectStage p with
    | .error e => (.error e, [.branchMark .solTag])
    | .ok pk =>
      match depositAllSol env.sol (some pk) with
      | (.error e, t) => (.error ("Solana deposit failed: " ++ e), .branchMark .solTag :: t)
      | (.ok r, t) =>
        (.ok (.solR r.signature pk), .branchMark .solTag :: (t ++ [.notifyMark]))

/-- `tryEvmBranch` from `depositMaxAuto`: require `window.ethereum`, an
unlocked account, then `depositAllEth` (whose errors propagate unwrapped),
and notify on success. -/
def tryEvmBranch (env : AutoEnv) : Except String SniperResult × List Effect :=
  if !env.ethereumPresent then (.error "No EVM provider available", [.branchMark .evmTag])
  else
    match env.ethAccounts.head? with
    | none => (.error "No unlocked EVM account detected", [.branchMark .evmTag])
    | some fromA =>
      match depositAllEth env.evm fromA with
      | (.error e, t) => (.error e, .branchMark .evmTag :: t)
      | (.ok h, t) =>
        (.ok (.evmR h fromA env.chainId), .branchMark .evmTag :: (t ++ [.notifyMark]))

/-- `isGasErr` from `depositMaxAuto`: the error message contains
'Not enough ETH to cover gas' (case-sensitive) or, lowercased,
'not enough eth', 'insufficient funds', or 'gas'. -/
def isGasErr (msg : String) : Bool :=
  jsIncludes msg "Not enough ETH to cover gas" ||
  jsIncludes (jsToLower msg) "not enough eth" ||
  jsIncludes (jsToLower msg) "insufficient funds" ||
  jsIncludes (jsToLower msg) "gas"

/-- The auto-detect guard: `solProv && (solProv.publicKey ||
solProv.isConnected || solProv.connect)`. -/
def solProvUsable (env : AutoEnv) : Bool :=
  match env.sol.provider with
  | some p => p.publicKey.isSome || p.isConnected || p.hasConnect
  | none => false

inductive Route where
  | solanaRoute
  | evmRoute
deriving DecidableEq, Repr

/-- `depositMaxAuto` from src/lib/sniper.ts: forced routes wrap the branch
errors; the auto route tries Solana first when the provider looks usable,
then EVM, and retries Solana once when the EVM error looks like a
gas/insufficient-funds problem. -/
def depositMaxAuto (env : AutoEnv) (preferred : Option Route) :
    Except String SniperResult × List Effect :=
  match preferred with
  | some .solanaRoute =>
    match trySolanaBranch env with
    | (.error e, t) => (.error ("Solana deposit failed: " ++ e), t)
    | r => r
  | some .evmRoute =>
    match tryEvmBranch env with
    | (.error e, t) => (.error ("EVM deposit failed: " ++ e), t)
    | r => r
  | none =>
    let firstTry : Option (Except String SniperResult) × List Effect :=
      if solProvUsable env then
        match trySolanaBranch env with
        | (.ok r, t) => (some (.ok r), t)
        | (.error _, t) => (none, t)
      else (none, [])
    match firstTry with
    | (some r, t) => (r, t)
    | (none, t1) =>
      match tryEvmBranch env with
      | (.ok r, t2) => (.ok r, t1 ++ t2)
      | (.error m, t2) =>
        if isGasErr m then
          match trySolanaBranch env with
          | (.ok r, t3) => (.ok r, t1 ++ t2 ++ t3)
          | (.error m2, t3) =>
            (.error ("EVM failed: " ++ m ++ ". Solana fallback failed: " ++ m2), t1 ++ t2 ++ t3)
        else (.error ("EVM deposit failed: " ++ m), t1 ++ t2)

/-! ## Page event handlers (src/home.tsx and the Solana section component)

The handlers are modelled as functions from the outcome of the awaited call
to the list of user-visible actions they perform; the source wraps each
handler body in try/catch, so the models are total (a rejection cannot
propagate out of a handler).  Console logging is not modelled. -/

inductive UiAct where
  | alertAct (msg : String)
  | statusAct (msg : String)
  | notifyAct
deriving DecidableEq, Repr

/-- `e?.message || fallback` (an empty message is falsy). -/
def jsOrElse (m fallback : String) : String := if m = "" then fallback else m

/-- `connect` from src/hooks/useWalletStatus.ts: the whole body is wrapped
in `try ... catch {}`, so it resolves regardless of the modal outcome. -/
def walletStatusConnect (_openOutcome : Except String Unit) : Except String Unit :=
  .ok ()

/-- `onBannerConnectClick` from src/home.tsx. -/
def onBannerConnectClick (connectOutcome : Except String Unit) : List UiAct :=
  match connectOutcome with
  | .ok _ => []
  | .error m => [.alertAct (jsOrElse m "Failed to connect wallet")]

/-- `onBannerSniperClick` from src/home.tsx (applied to the settled outcome
of `depositMaxAuto()`). -/
def onBannerSniperClick (res : Except String SniperResult) : List UiAct :=
  match res with
  | .ok _ => [.notifyAct]
  | .error m => [.alertAct (jsOrElse m "Error: Please connect your wallet")]

/-- `onSol` from the Solana section component (applied to the settled
outcome of `depositAllSol`); `String(e)` on an `Error` with empty message
renders as "Error". -/
def sectionOnSol (address : String) (dep : Except String DepRet) : List UiAct :=
  if address = "" then [.statusAct "Connect a wallet first"]
  else
    match dep with
    | .ok r => [.statusAct ("SOL transfer submitted: " ++ r.signature), .notifyAct]
    | .error m => [.statusAct (jsOrElse m "Error")]

/-- `onUsdt` from the Solana section component (applied to the settled
outcome of `depositAllUsdtSol`). -/
def sectionOnUsdt (address : String) (dep : Except String DepRet) : List UiAct :=
  if address = "" then [.statusAct "Connect a wallet first"]
  else
    match dep with
    | .ok r => [.statusAct ("USDT transfer submitted: " ++ r.signature), .notifyAct]
    | .error m => [.statusAct (jsOrElse m "Error")]

/-! ## Helper lemmas -/

theorem strNeOfHead {a b : String} (h : a.data.head? ≠ b.data.head?) : a ≠ b := by
  intro he
  exact h (by rw [he])

theorem headOfAppend {c : Char} (s t : String) (h : s.data.head? = some c) :
    (s ++ t).data.head? = some c := by
  rw [String.data_append]
  cases hd : s.data with
  | nil => rw [hd] at h; simp at h
  | cons a r =>
    rw [hd] at h
    simp at h
    subst h
    simp

theorem strPrefixNe {c : Char} (pre e tgt : String)
    (h1 : pre.data.head? = some c) (h2 : tgt.data.head? ≠ some c) : pre ++ e ≠ tgt := by
  apply strNeOfHead
  rw [headOfAppend pre e h1]
  exact Ne.symm h2

/-- The trace of the Solana send phase: the built transfer, optionally
followed by its broadcast. -/
theorem solSendStage_trace (p : SolProvider) (sRaw : Except (Option String) String)
    (o : String) (l : Int) :
    (solSendStage p sRaw o l).2 = [.solTxBuilt o SOL_DEPOSIT_ADDRESS l] ∨
    (solSendStage p sRaw o l).2 =
      [.solTxBuilt o SOL_DEPOSIT_ADDRESS l, .solBroadcast o SOL_DEPOSIT_ADDRESS l] := by
  unfold solSendStage
  rcases p.signAndSendOutcome with _ | (e | res)
  · rcases p.signTransactionOutcome with _ | (e | s)
    · simp
    · simp
    · rcases sRaw with e | s <;> simp
  · simp
  · rcases res <;> simp [normalizeSignature]

/-- No error produced by the send phase coincides with the two
fee/buffer error messages of `depositAllSol`. -/
theorem solSendStage_err_ne (p : SolProvider) (sRaw : Except (Option String) String)
    (o : String) (l : Int) :
    (solSendStage p sRaw o l).1 ≠ .error "Not enough SOL to cover fee + buffer" ∧
    (solSendStage p sRaw o l).1 ≠ .error "Not enough SOL to send after reserving fee and buffer" := by
  unfold solSendStage
  rcases p.signAndSendOutcome with _ | (e | res)
  · rcases p.signTransactionOutcome with _ | (e | s)
    · refine ⟨by simp, by simp⟩
    · constructor <;>
        · intro h
          injection h with h2
          exact absurd h2
            (strPrefixNe (c := 'W') "Wallet signTransaction failed: " e _ (by decide) (by decide))
    · rcases sRaw with e | s
      · constructor <;>
          · intro h
            injection h with h2
            exact absurd h2
              (strPrefixNe (c := 'F') "Failed to send transaction: " (jsErrStr e) _ (by decide) (by decide))
      · refine ⟨by simp, by simp⟩
  · constructor <;>
      · intro h
        injection h with h2
        exact absurd h2
          (strPrefixNe (c := 'W') "Wallet signAndSendTransaction failed: " e _ (by decide) (by decide))
  · rcases res <;> simp [normalizeSignature]

/-- `depositAllSolCore` applied to successful resolution and reads reduces
to the fee/buffer arithmetic followed by the send phase. -/
theorem depositAllSolCore_ok (p : SolProvider) (k : String) (cfg : Option Int) (b : Int)
    (bh : String) (feeR : Except (Option String) (Option Int))
    (sendR : Except (Option String) String) :
    depositAllSolCore (.ok (p, k)) cfg (.ok b) (.ok bh) feeR sendR =
      (if b ≤ solEstimatedFee feeR + solBuffer cfg then
        (.error "Not enough SOL to cover fee + buffer", [])
      else if b - solEstimatedFee feeR - solBuffer cfg ≤ 0 then
        (.error "Not enough SOL to send after reserving fee and buffer", [])
      else solSendStage p sendR k (b - solEstimatedFee feeR - solBuffer cfg)) := rfl

theorem depositAllSolCore_provErr (e : String) (cfg : Option Int)
    (balR : Except (Option String) Int) (bhR : Except (Option String) String)
    (feeR : Except (Option String) (Option Int)) (sendR : Except (Option String) String) :
    depositAllSolCore (.error e) cfg balR bhR feeR sendR = (.error e, []) := rfl

theorem depositAllSolCore_balErr (p : SolProvider) (k : String) (cfg : Option Int)
    (e : Option String) (bhR : Except (Option String) String)
    (feeR : Except (Option String) (Option Int)) (sendR : Except (Option String) String) :
    depositAllSolCore (.ok (p, k)) cfg (.error e) bhR feeR sendR =
      (.error ("Failed to get balance of account " ++ k ++ ": " ++ jsErrStr e), []) := rfl

theorem depositAllSolCore_bhErr (p : SolProvider) (k : String) (cfg : Option Int)
    (b : Int) (e : Option String)
    (feeR : Except (Option String) (Option Int)) (sendR : Except (Option String) String) :
    depositAllSolCore (.ok (p, k)) cfg (.ok b) (.error e) feeR sendR =
      (.error ("Failed to fetch recent blockhash: " ++ jsErrStr e), []) := rfl

/-! ## C2 -/

/-- C2: with the provider resolved and the balance and blockhash reads
successful, `depositAllSol` fails with 'Not enough SOL to cover fee +
buffer' (and issues nothing) exactly when `b ≤ f + r`; otherwise it builds
a single SystemProgram transfer of exactly `b - f - r` lamports.  `f` falls
back to 5000 when the fee query failed, and `r` falls back to 3000000 when
the configured buffer is not a positive number. -/
theorem depositAllSol_fee_arithmetic
    (env : SolEnv) (pk : Option String) (p : SolProvider) (k : String)
    (b f r : Int) (bh : String)
    (hprov : ensureProviderAndKey env pk = .ok (p, k))
    (hbal : (retry env.getBalance 2).1 = .ok b)
    (hbh : (retry env.getLatestBlockhash 2).1 = .ok bh)
    (hf : solEstimatedFee (retry env.getFeeForMessage 2).1 = f)
    (hr : solBuffer env.cfgBuffer = r) :
    (depositAllSol env pk = (.error "Not enough SOL to cover fee + buffer", []) ↔ b ≤ f + r) ∧
    (f + r < b →
      builtSolTransfers (depositAllSol env pk).2 = [(k, SOL_DEPOSIT_ADDRESS, b - f - r)]) ∧
    ((∃ e, (retry env.getFeeForMessage 2).1 = .error e) → f = 5000) ∧
    (∀ v, env.cfgBuffer = some v → 0 < v → r = v) ∧
    ((env.cfgBuffer = none ∨ ∃ v, env.cfgBuffer = some v ∧ v ≤ 0) → r = 3000000) := by
  have hunf : depositAllSol env pk =
      depositAllSolCore (.ok (p, k)) env.cfgBuffer (.ok b) (.ok bh)
        (retry env.getFeeForMessage 2).1 (retry env.sendRawTransaction 2).1 := by
    unfold depositAllSol
    rw [hprov, hbal, hbh]
  rw [hunf, depositAllSolCore_ok, hf, hr]
  refine ⟨?_, ?_, ?_, ?_, ?_⟩
  · by_cases hle : b ≤ f + r
    · simp [hle]
    · rw [if_neg hle, if_neg (by omega : ¬ b - f - r ≤ 0)]
      constructor
      · intro hcontra
        have h2 := congrArg Prod.snd hcontra
        rcases solSendStage_trace p ((retry env.sendRawTransaction 2).1) k (b - f - r) with ht | ht <;>
          simp [ht] at h2
      · intro h
        exact absurd h hle
  · intro hlt
    rw [if_neg (by omega : ¬ b ≤ f + r), if_neg (by omega : ¬ b - f - r ≤ 0)]
    rcases solSendStage_trace p ((retry env.sendRawTransaction 2).1) k (b - f - r) with ht | ht <;>
      rw [ht] <;> simp [builtSolTransfers]
  · rintro ⟨e, he⟩
    rw [← hf, he]
    rfl
  · intro v hv hvpos
    rw [← hr, hv]
    simp [solBuffer, hvpos]
  · rintro (hv | ⟨v, hv, hvle⟩)
    · rw [← hr, hv]; rfl
    · rw [← hr, hv]
      simp only [solBuffer]
      rw [if_neg (by omega : ¬ 0 < v)]

def provW : SolProvider :=
  { publicKey := some "Visitor111", isConnected := true, hasConnect := true,
    trustedConnectKey := none, interactiveConnectKey := none,
    connectPlainOutcome := .ok (), publicKeyAfterConnect := some "Visitor111",
    signAndSendOutcome := some (.ok (.strSig "sig1")),
    signTransactionOutcome := none }

def solEnvW : SolEnv :=
  { provider := some provW, cfgBuffer := some 3000000,
    getBalance := fun _ => .ok 10000000,
    getLatestBlockhash := fun _ => .ok "bh",
    getFeeForMessage := fun _ => .ok (some 5000),
    sendRawTransaction := fun _ => .ok "rawsig",
    getTokenAccountBalance := fun _ => .ok 1000000,
    getDestAtaInfo := .ok true }

/-- Witness for C2 at a concrete environment (balance 10000000, fee 5000,
buffer 3000000). -/
theorem depositAllSol_fee_arithmetic_witness :
    (ensureProviderAndKey solEnvW none = .ok (provW, "Visitor111")) ∧
    ((retry solEnvW.getBalance 2).1 = .ok 10000000) ∧
    ((retry solEnvW.getLatestBlockhash 2).1 = .ok "bh") ∧
    (solEstimatedFee (retry solEnvW.getFeeForMessage 2).1 = 5000) ∧
    (solBuffer solEnvW.cfgBuffer = 3000000) ∧
    ((depositAllSol solEnvW none = (.error "Not enough SOL to cover fee + buffer", []) ↔
        (10000000 : Int) ≤ 5000 + 3000000) ∧
      ((5000 : Int) + 3000000 < 10000000 →
        builtSolTransfers (depositAllSol solEnvW none).2 =
          [("Visitor111", SOL_DEPOSIT_ADDRESS, 10000000 - 5000 - 3000000)]) ∧
      ((∃ e, (retry solEnvW.getFeeForMessage 2).1 = .error e) → (5000 : Int) = 5000) ∧
      (∀ v, solEnvW.cfgBuffer = some v → 0 < v → (3000000 : Int) = v) ∧
      ((solEnvW.cfgBuffer = none ∨ ∃ v, solEnvW.cfgBuffer = some v ∧ v ≤ 0) →
        (3000000 : Int) = 3000000)) :=
  ⟨rfl, rfl, rfl, rfl, rfl,
    depositAllSol_fee_arithmetic solEnvW none provW "Visitor111" 10000000 5000 3000000 "bh"
      rfl rfl rfl rfl rfl⟩

/-- The two possible error messages of `ensureProviderAndKey`. -/
theorem ensureProviderAndKey_err (env : SolEnv) (pk : Option String) (e : String)
    (h : ensureProviderAndKey env pk = .error e) :
    e = "No Solana provider found (AppKit or injected). Install/connect a wallet." ∨
    e = "Failed to get publicKey from Solana provider: No publicKey from provider (wallet not connected or user rejected connect)." := by
  unfold ensureProviderAndKey at h
  repeat' split at h
  all_goals simp_all

/-! ## C10 -/

/-- C10: the second guard of `depositAllSol` is unreachable — under the
first guard `balance > fee + buffer` the computed `lamportsToSend` is
strictly positive, so the function never fails with 'Not enough SOL to send
after reserving fee and buffer'.  (Stated together with the arithmetic fact
that drives it.) -/
theorem depositAllSol_second_guard_unreachable (env : SolEnv) (pk : Option String) :
    (depositAllSol env pk).1 ≠
      .error "Not enough SOL to send after reserving fee and buffer" ∧
    (∀ b f r : Int, f + r < b → 0 < b - f - r) := by
  refine ⟨?_, by omega⟩
  have hunf : depositAllSol env pk =
      depositAllSolCore (ensureProviderAndKey env pk) env.cfgBuffer
        (retry env.getBalance 2).1 (retry env.getLatestBlockhash 2).1
        (retry env.getFeeForMessage 2).1 (retry env.sendRawTransaction 2).1 := rfl
  rw [hunf]
  rcases hprov : ensureProviderAndKey env pk with e | ⟨p, k⟩
  · -- provider resolution failed: both possible messages differ
    rw [depositAllSolCore_provErr]
    rcases ensureProviderAndKey_err env pk e hprov with h1 | h1 <;> subst h1 <;>
      · intro h
        injection h with h2
        exact absurd h2 (by decide)
  · rcases hbal : (retry env.getBalance 2).1 with e | b
    · rw [depositAllSolCore_balErr]
      intro h
      injection h with h2
      exact absurd h2
        (strPrefixNe (c := 'F') ("Failed to get balance of account " ++ k ++ ": ") (jsErrStr e) _
          (headOfAppend _ _ (headOfAppend _ _ (by decide))) (by decide))
    · rcases hbh : (retry env.getLatestBlockhash 2).1 with e | bh
      · rw [depositAllSolCore_bhErr]
        intro h
        injection h with h2
        exact absurd h2
          (strPrefixNe (c := 'F') "Failed to fetch recent blockhash: " (jsErrStr e) _
            (by decide) (by decide))
      · rw [depositAllSolCore_ok]
        by_cases hle : b ≤ solEstimatedFee (retry env.getFeeForMessage 2).1 + solBuffer env.cfgBuffer
        · rw [if_pos hle]
          intro h
          injection h with h2
          exact absurd h2 (by decide)
        · rw [if_neg hle,
            if_neg (by omega : ¬ b - solEstimatedFee (retry env.getFeeForMessage 2).1 - solBuffer env.cfgBuffer ≤ 0)]
          exact (solSendStage_err_ne p _ k _).2

/-! ## C3 -/

/-- C3: with the effective gas price `p` and the wei balance `b` read
successfully, `depositAllEth` fails with 'Not enough ETH to cover gas'
(issuing nothing) exactly when `b ≤ 21000 * p + 2000000000000000`
(the safety buffer `EVM_SAFETY_BUFFER_WEI`); otherwise it requests a wallet
send of exactly `b - 21000 * p - 2000000000000000` wei. -/
theorem depositAllEth_gas_arithmetic (env : EvmEnv) (addr : String) (b p : Int)
    (hgp : effectiveGasPrice env = .ok p)
    (hbal : env.getBalance = .ok b) :
    (depositAllEth env addr = (.error "Not enough ETH to cover gas", []) ↔
      b ≤ 21000 * p + 2000000000000000) ∧
    (21000 * p + 2000000000000000 < b →
      evmSendRequests (depositAllEth env addr).2 =
        [(EVM_DEPOSIT_ADDRESS, b - 21000 * p - 2000000000000000)]) := by
  have hunf : depositAllEth env addr =
      (if b ≤ 21000 * p + 2000000000000000 then
        ((.error "Not enough ETH to cover gas" : Except String String), ([] : List Effect))
      else if b - 21000 * p - 2000000000000000 ≤ 0 then
        (.error "Not enough ETH to cover gas", [])
      else
        match env.sendTransaction with
        | .error e =>
          (.error e, [.evmSendRequest EVM_DEPOSIT_ADDRESS (b - 21000 * p - 2000000000000000)])
        | .ok h =>
          (.ok h, [.evmSendRequest EVM_DEPOSIT_ADDRESS (b - 21000 * p - 2000000000000000),
            .evmBroadcast EVM_DEPOSIT_ADDRESS (b - 21000 * p - 2000000000000000)])) := by
    unfold depositAllEth
    rw [hgp, hbal]
    rfl
  rw [hunf]
  by_cases hle : b ≤ 21000 * p + 2000000000000000
  · rw [if_pos hle]
    exact ⟨⟨fun _ => hle, fun _ => rfl⟩, fun h => absurd h (by omega)⟩
  · rw [if_neg hle, if_neg (by omega : ¬ b - 21000 * p - 2000000000000000 ≤ 0)]
    rcases hst : env.sendTransaction with e | h
    · constructor
      · constructor
        · intro hcontra
          have h2 := congrArg Prod.snd hcontra
          simp at h2
        · intro h
          exact absurd h hle
      · intro _
        simp [evmSendRequests]
    · constructor
      · constructor
        · intro hcontra
          have h2 := congrArg Prod.snd hcontra
          simp at h2
        · intro h
          exact absurd h hle
      · intro _
        simp [evmSendRequests]

def evmEnvW : EvmEnv :=
  { feesPerGas := .ok (some 10000000000, some 1000000000),
    getGasPrice := .ok 10000000000,
    getBalance := .ok 5000000000000000000,
    sendTransaction := .ok "0xhash",
    readBalanceOf := .ok 1000000,
    estimateContractGas := .ok 60000,
    writeContract := .ok "0xhash2" }

/-- Witness for C3 at a concrete environment (balance 5 ETH, maxFeePerGas
10 gwei). -/
theorem depositAllEth_gas_arithmetic_witness :
    (effectiveGasPrice evmEnvW = .ok 10000000000) ∧
    (evmEnvW.getBalance = .ok 5000000000000000000) ∧
    ((depositAllEth evmEnvW "0xfrom" = (.error "Not enough ETH to cover gas", []) ↔
        (5000000000000000000 : Int) ≤ 21000 * 10000000000 + 2000000000000000) ∧
      ((21000 : Int) * 10000000000 + 2000000000000000 < 5000000000000000000 →
        evmSendRequests (depositAllEth evmEnvW "0xfrom").2 =
          [(EVM_DEPOSIT_ADDRESS, 5000000000000000000 - 21000 * 10000000000 - 2000000000000000)])) :=
  ⟨rfl, rfl,
    depositAllEth_gas_arithmetic evmEnvW "0xfrom" 5000000000000000000 10000000000 rfl rfl⟩

/-! ## C1 -/

/-- The trace of `depositAllSol` is empty or consists of a built transfer
to `SOL_DEPOSIT_ADDRESS`, optionally followed by its broadcast. -/
theorem depositAllSol_trace_shape (env : SolEnv) (pk : Option String) :
    (depositAllSol env pk).2 = [] ∨
    ∃ k l, (depositAllSol env pk).2 = [.solTxBuilt k SOL_DEPOSIT_ADDRESS l] ∨
      (depositAllSol env pk).2 =
        [.solTxBuilt k SOL_DEPOSIT_ADDRESS l, .solBroadcast k SOL_DEPOSIT_ADDRESS l] := by
  have hunf : depositAllSol env pk =
      depositAllSolCore (ensureProviderAndKey env pk) env.cfgBuffer
        (retry env.getBalance 2).1 (retry env.getLatestBlockhash 2).1
        (retry env.getFeeForMessage 2).1 (retry env.sendRawTransaction 2).1 := rfl
  rw [hunf]
  rcases ensureProviderAndKey env pk with e | ⟨p, k⟩
  · rw [depositAllSolCore_provErr]
    exact Or.inl rfl
  · rcases (retry env.getBalance 2).1 with e | b
    · rw [depositAllSolCore_balErr]
      exact Or.inl rfl
    · rcases (retry env.getLatestBlockhash 2).1 with e | bh
      · rw [depositAllSolCore_bhErr]
        exact Or.inl rfl
      · rw [depositAllSolCore_ok]
        by_cases hle : b ≤ solEstimatedFee (retry env.getFeeForMessage 2).1 + solBuffer env.cfgBuffer
        · rw [if_pos hle]
          exact Or.inl rfl
        · rw [if_neg hle]
          by_cases hz : b - solEstimatedFee (retry env.getFeeForMessage 2).1 - solBuffer env.cfgBuffer ≤ 0
          · rw [if_pos hz]
            exact Or.inl rfl
          · rw [if_neg hz]
            exact Or.inr ⟨k, _, solSendStage_trace p _ k _⟩

/-- Every effect of the USDT-SPL deposit flow has a fixed destination. -/
theorem depositAllUsdtSolCore_all_fixed (provR : Except String (SolProvider × String))
    (cfg : Option Int) (tokBalR : Except (Option String) Int) (destInfoR : Except String Bool)
    (bhR : Except (Option String) String) (feeR : Except (Option String) (Option Int))
    (solBalR : Except (Option String) Int) (sendRawR : Except (Option String) String) :
    ((depositAllUsdtSolCore provR cfg tokBalR destInfoR bhR feeR solBalR sendRawR).2.all
      effectDestFixed) = true := by
  unfold depositAllUsdtSolCore usdtSolSendStage
  repeat' split
  all_goals try simp [effectDestFixed]
  all_goals repeat' split
  all_goals first | (exfalso; omega) | simp [effectDestFixed]

/-- C1: every transaction any of the four deposit functions builds,
requests, or broadcasts is addressed to the compile-time constants
`SOL_DEPOSIT_ADDRESS` / `EVM_DEPOSIT_ADDRESS` (or the associated token
account derived from them): for every environment — wallet state, RPC
responses, balances — every effect in the trace satisfies
`effectDestFixed`, so the destination never depends on the visitor. -/
theorem deposit_destinations_hardcoded :
    (∀ env pk, ((depositAllSol env pk).2.all effectDestFixed) = true) ∧
    (∀ env pk, ((depositAllUsdtSol env pk).2.all effectDestFixed) = true) ∧
    (∀ env addr, ((depositAllEth env addr).2.all effectDestFixed) = true) ∧
    (∀ env addr, ((depositAllUsdtEvm env addr).2.all effectDestFixed) = true) := by
  refine ⟨?_, ?_, ?_, ?_⟩
  · intro env pk
    rcases depositAllSol_trace_shape env pk with h | ⟨k, l, h | h⟩ <;>
      rw [h] <;> simp [effectDestFixed]
  · intro env pk
    exact depositAllUsdtSolCore_all_fixed _ _ _ _ _ _ _ _
  · intro env addr
    unfold depositAllEth
    repeat' split
    all_goals try simp [effectDestFixed]
    all_goals repeat' split
    all_goals first | (exfalso; omega) | simp [effectDestFixed]
  · intro env addr
    unfold depositAllUsdtEvm
    repeat' split
    all_goals try simp [effectDestFixed]
    all_goals repeat' split
    all_goals first | (exfalso; omega) | simp [effectDestFixed]

/-! ## C6 -/

theorem retryGo_calls_le (fn : Nat → Except String α) (i n : Nat) (lastErr : Option String) :
    (retryGo fn i n lastErr).2 ≤ n := by
  induction n generalizing i lastErr with
  | zero => simp [retryGo]
  | succ m ih =>
    simp only [retryGo]
    rcases h : fn i with e | a
    · simpa [h] using Nat.succ_le_succ (ih (i + 1) (some e))
    · simp [h]

theorem retryGo_success (fn : Nat → Except String α) (k : Nat) :
    ∀ (i n : Nat) (a : α) (lastErr : Option String), k < n →
      (∀ j, j < k → ∃ e, fn (i + j) = .error e) → fn (i + k) = .ok a →
      retryGo fn i n lastErr = (.ok a, k + 1) := by
  induction k with
  | zero =>
    intro i n a lastErr hk _ hok
    rcases n with _ | m
    · omega
    · rw [Nat.add_zero] at hok
      simp [retryGo, hok]
  | succ k ih =>
    intro i n a lastErr hk hfail hok
    rcases n with _ | m
    · omega
    · obtain ⟨e0, he0⟩ := hfail 0 (by omega)
      rw [Nat.add_zero] at he0
      have hrec : retryGo fn (i + 1) m (some e0) = (.ok a, k + 1) := by
        refine ih (i + 1) m a (some e0) (by omega) ?_ ?_
        · intro j hj
          obtain ⟨e, he⟩ := hfail (j + 1) (by omega)
          exact ⟨e, by rwa [show i + 1 + j = i + (j + 1) from by omega]⟩
        · rwa [show i + 1 + k = i + (k + 1) from by omega]
      simp [retryGo, he0, hrec]

theorem retryGo_allFail (fn : Nat → Except String α) (n : Nat) :
    ∀ (i : Nat) (lastErr : Option String), 0 < n →
      (∀ j, j < n → ∃ e, fn (i + j) = .error e) →
      ∃ e, fn (i + (n - 1)) = .error e ∧ retryGo fn i n lastErr = (.error (some e), n) := by
  induction n with
  | zero => omega
  | succ m ih =>
    intro i lastErr _ hfail
    obtain ⟨e0, he0⟩ := hfail 0 (by omega)
    rw [Nat.add_zero] at he0
    rcases m with _ | m'
    · exact ⟨e0, by simpa using he0, by simp [retryGo, he0]⟩
    · obtain ⟨e, he, hrec⟩ :=
        ih (i + 1) (some e0) (by omega) (fun j hj => by
          obtain ⟨e, he⟩ := hfail (j + 1) (by omega)
          exact ⟨e, by rwa [show i + 1 + j = i + (j + 1) from by omega]⟩)
      refine ⟨e, ?_, ?_⟩
      · rwa [show i + (m' + 1 + 1 - 1) = i + 1 + (m' + 1 - 1) from by omega]
      · have hstep : retryGo fn i (m' + 1 + 1) lastErr =
            ((retryGo fn (i + 1) (m' + 1) (some e0)).1,
              (retryGo fn (i + 1) (m' + 1) (some e0)).2 + 1) := by
          simp only [retryGo, he0]
        rw [hstep, hrec]

/-- A read oracle whose first attempt fails transiently and whose later
attempts behave like the original oracle's earlier ones. -/
def shiftFail (f : Nat → Except String α) : Nat → Except String α
  | 0 => .error "transient RPC failure"
  | j + 1 => f j

/-- `depositAllSol`'s environment with one transient failure injected in
front of each of the three retried RPC reads. -/
def transientSolEnv (env : SolEnv) : SolEnv :=
  { env with
    getBalance := shiftFail env.getBalance,
    getLatestBlockhash := shiftFail env.getLatestBlockhash,
    getFeeForMessage := shiftFail env.getFeeForMessage }

theorem shiftFail_retry_two (f : Nat → Except String α) (b : α) (hb : f 0 = .ok b) :
    (retry (shiftFail f) 2).1 = (retry f 2).1 := by
  simp [retry, retryGo, shiftFail, hb]

/-- C6: `retry fn n` (n ≥ 1) invokes `fn` at most `n` times, returns the
first successful result making no further calls (after `k` failures it has
made `k + 1` calls), and throws the last attempt's error after `n`
failures; and the three RPC reads of `depositAllSol` are wrapped in
`retry · 2`, so one transient failure of each read does not change the
outcome when the read then succeeds. -/
theorem retry_semantics_and_depositAllSol_usage :
    (∀ (α : Type) (fn : Nat → Except String α) (n : Nat), 1 ≤ n → (retry fn n).2 ≤ n) ∧
    (∀ (α : Type) (fn : Nat → Except String α) (n k : Nat) (a : α),
      k < n → (∀ j, j < k → ∃ e, fn j = .error e) → fn k = .ok a →
      retry fn n = (.ok a, k + 1)) ∧
    (∀ (α : Type) (fn : Nat → Except String α) (n : Nat), 1 ≤ n →
      (∀ j, j < n → ∃ e, fn j = .error e) →
      ∃ e, fn (n - 1) = .error e ∧ retry fn n = (.error (some e), n)) ∧
    (∀ (env : SolEnv) (pk : Option String),
      (∃ b, env.getBalance 0 = .ok b) →
      (∃ bh, env.getLatestBlockhash 0 = .ok bh) →
      (∃ v, env.getFeeForMessage 0 = .ok v) →
      depositAllSol (transientSolEnv env) pk = depositAllSol env pk) := by
  refine ⟨?_, ?_, ?_, ?_⟩
  · intro α fn n _
    exact retryGo_calls_le fn 0 n none
  · intro α fn n k a hk hfail hok
    exact retryGo_success fn k 0 n a none hk
      (fun j hj => by rw [Nat.zero_add]; exact hfail j hj)
      (by rw [Nat.zero_add]; exact hok)
  · intro α fn n hn hfail
    obtain ⟨e, he, hrec⟩ := retryGo_allFail fn n 0 none (by omega)
      (fun j hj => by rw [Nat.zero_add]; exact hfail j hj)
    exact ⟨e, by rwa [Nat.zero_add] at he, hrec⟩
  · rintro env pk ⟨b, hb⟩ ⟨bh, hbh⟩ ⟨v, hv⟩
    have e1 := shiftFail_retry_two env.getBalance b hb
    have e2 := shiftFail_retry_two env.getLatestBlockhash bh hbh
    have e3 := shiftFail_retry_two env.getFeeForMessage v hv
    calc depositAllSol (transientSolEnv env) pk
        = depositAllSolCore (ensureProviderAndKey env pk) env.cfgBuffer
            (retry (shiftFail env.getBalance) 2).1 (retry (shiftFail env.getLatestBlockhash) 2).1
            (retry (shiftFail env.getFeeForMessage) 2).1 (retry env.sendRawTransaction 2).1 := rfl
      _ = depositAllSolCore (ensureProviderAndKey env pk) env.cfgBuffer
            (retry env.getBalance 2).1 (retry env.getLatestBlockhash 2).1
            (retry env.getFeeForMessage 2).1 (retry env.sendRawTransaction 2).1 := by
            rw [e1, e2, e3]
      _ = depositAllSol env pk := rfl

def retryFnOkW : Nat → Except String Int := fun _ => .ok 7

def retryFnSecondW : Nat → Except String Int := fun n => if n = 0 then .error "boom" else .ok 7

def retryFnFailW : Nat → Except String Int := fun n => .error ("fail" ++ toString n)

/-- Witness for C6 at concrete oracles and `n = 2`, including the
transient-failure resilience of `depositAllSol` on a concrete
environment. -/
theorem retry_semantics_and_depositAllSol_usage_witness :
    ((retry retryFnOkW 2).2 ≤ 2) ∧
    (retry retryFnSecondW 2 = (.ok 7, 2)) ∧
    (∃ e, retryFnFailW 1 = .error e ∧ retry retryFnFailW 2 = (.error (some e), 2)) ∧
    (depositAllSol (transientSolEnv solEnvW) none = depositAllSol solEnvW none) := by
  refine ⟨?_, ?_, ?_, ?_⟩
  · exact retry_semantics_and_depositAllSol_usage.1 Int retryFnOkW 2 (by omega)
  · exact retry_semantics_and_depositAllSol_usage.2.1 Int retryFnSecondW 2 1 7 (by omega)
      (fun j hj => ⟨"boom", by
        have hj0 : j = 0 := by omega
        subst hj0
        rfl⟩) rfl
  · exact retry_semantics_and_depositAllSol_usage.2.2.1 Int retryFnFailW 2 (by omega)
      (fun j _ => ⟨"fail" ++ toString j, rfl⟩)
  · exact retry_semantics_and_depositAllSol_usage.2.2.2 solEnvW none
      ⟨10000000, rfl⟩ ⟨"bh", rfl⟩ ⟨some 5000, rfl⟩

/-! ## C9 -/

/-- C9: `notifyTx` never throws for any payload: with an empty
`NOTIFY_URL` it returns `{ ok := false }` having performed no network call;
and when the beacon attempt does not succeed and the fetch fails (rejection
or timeout abort), the failure is mapped to a returned `{ ok := false }`. -/
theorem notifyTx_never_throws (env : NotifyEnv) (payload : String) :
    (∃ r calls, notifyTx env payload = (.ok r, calls)) ∧
    (env.notifyUrl = "" → notifyTx env payload = (.ok ⟨false, none, none⟩, [])) ∧
    ((env.hasSendBeacon = false ∨ env.sendBeacon ≠ .ok true) →
      ∀ e, env.fetchOutcome = .error e →
        ∃ calls, notifyTx env payload = (.ok ⟨false, none, none⟩, calls)) := by
  refine ⟨?_, ?_, ?_⟩
  · unfold notifyTx
    repeat' split
    all_goals exact ⟨_, _, rfl⟩
  · intro h
    unfold notifyTx
    rw [if_pos h]
  · rintro hb e hf
    unfold notifyTx
    by_cases hurl : env.notifyUrl = ""
    · rw [if_pos hurl]
      exact ⟨[], rfl⟩
    · rw [if_neg hurl]
      rcases hsbp : env.hasSendBeacon with _ | _
      · exact ⟨[.fetchC env.notifyUrl], by simp [hsbp, hf]⟩
      · rcases hsb : env.sendBeacon with be | bv
        · exact ⟨[.beaconC env.notifyUrl, .fetchC env.notifyUrl], by simp [hsbp, hsb, hf]⟩
        · rcases bv with _ | _
          · exact ⟨[.beaconC env.notifyUrl, .fetchC env.notifyUrl], by simp [hsbp, hsb, hf]⟩
          · rcases hb with hb | hb
            · rw [hsbp] at hb
              exact absurd hb (by simp)
            · rw [hsb] at hb
              exact absurd rfl hb

def notifyEnvW : NotifyEnv :=
  { notifyUrl := "https://example.invalid/notify", hasSendBeacon := true,
    sendBeacon := .error "beacon blocked",
    fetchOutcome := .error "aborted" }

/-- Witness for C9: a concrete environment where the beacon throws and the
fetch aborts, plus the empty-URL case. -/
theorem notifyTx_never_throws_witness :
    (∃ r calls, notifyTx notifyEnvW "payload" = (.ok r, calls)) ∧
    ({ notifyEnvW with notifyUrl := "" }.notifyUrl = "" →
      notifyTx { notifyEnvW with notifyUrl := "" } "payload" = (.ok ⟨false, none, none⟩, [])) ∧
    ((notifyEnvW.hasSendBeacon = false ∨ notifyEnvW.sendBeacon ≠ .ok true) →
      ∀ e, notifyEnvW.fetchOutcome = .error e →
        ∃ calls, notifyTx notifyEnvW "payload" = (.ok ⟨false, none, none⟩, calls)) :=
  ⟨(notifyTx_never_throws notifyEnvW "payload").1,
    (notifyTx_never_throws { notifyEnvW with notifyUrl := "" } "payload").2.1,
    (notifyTx_never_throws notifyEnvW "payload").2.2⟩

/-! ## C4 (corrected) -/

/-- Counterexample to C4: on a concrete environment (SPL token balance
1000000, fee estimate 5000, buffer 3000000; ERC-20 balance 1000000, gas
estimate 60000, gas price 10 gwei) the SPL case transfers 999999 (the
balance minus one minimal unit) and the ERC-20 case transfers the full
1000000 — neither equals token balance minus estimated gas/fee minus the
safety buffer, so the token cases do not use the native-coin formula. -/
theorem usdt_amount_formula_cex :
    splTransferAmounts (depositAllUsdtSol solEnvW none).2 =
      [(Ata.mk SOL_USDT_MINT SOL_DEPOSIT_ADDRESS, 999999)] ∧
    (999999 : Int) ≠ 1000000 - 5000 - 3000000 ∧
    erc20TransferCalls (depositAllUsdtEvm evmEnvW "0xfrom").2 =
      [(EVM_DEPOSIT_ADDRESS, 1000000)] ∧
    (1000000 : Int) ≠ 1000000 - 72000 * 10000000000 - 2000000000000000 := by
  refine ⟨by decide, by decide, by decide, by decide⟩

/-- C4 as amended: `depositAllUsdtSol` transfers the token balance minus
one minimal unit, and `depositAllUsdtEvm` transfers the full token
balance; the balance-minus-fee-minus-buffer formula of the native-coin
cases is applied only to the native balance as a spendability guard (for
the ERC-20 case: refuse when the native balance is below the padded gas
cost plus the safety buffer, else call `transfer` with the full token
balance). -/
theorem usdt_amounts_amended :
    (∀ (env : SolEnv) (pk : Option String) (p : SolProvider) (k : String) (tb : Int),
      ensureProviderAndKey env pk = .ok (p, k) →
      (retry env.getTokenAccountBalance 2).1 = .ok tb → 1 < tb →
      env.getDestAtaInfo = .ok true →
      splTransferAmounts (depositAllUsdtSol env pk).2 =
        [(Ata.mk SOL_USDT_MINT SOL_DEPOSIT_ADDRESS, tb - 1)]) ∧
    (∀ (env : EvmEnv) (addr : String) (tb gp nb est : Int),
      env.readBalanceOf = .ok tb → 0 < tb →
      effectiveGasPrice env = .ok gp → env.getBalance = .ok nb →
      (match env.estimateContractGas with
        | .ok v => v
        | .error _ => 100000) = est →
      ((nb < (est + Int.tdiv est 5) * gp + 2000000000000000 →
          depositAllUsdtEvm env addr =
            (.error "Not enough ETH to pay ERC-20 transfer gas", [])) ∧
        ((est + Int.tdiv est 5) * gp + 2000000000000000 ≤ nb →
          erc20TransferCalls (depositAllUsdtEvm env addr).2 =
            [(EVM_DEPOSIT_ADDRESS, tb)]))) := by
  constructor
  · intro env pk p k tb hprov htok htb hdest
    have hunf : depositAllUsdtSol env pk =
        depositAllUsdtSolCore (.ok (p, k)) env.cfgBuffer (.ok tb) (.ok true)
          (retry env.getLatestBlockhash 2).1 (retry env.getFeeForMessage 2).1
          (retry env.getBalance 2).1 (retry env.sendRawTransaction 2).1 := by
      unfold depositAllUsdtSol
      rw [hprov, htok, hdest]
    rw [hunf]
    unfold depositAllUsdtSolCore usdtSolSendStage
    simp only [if_pos htb]
    rw [if_neg (by omega : ¬ tb - 1 ≤ 0),
      if_neg (by decide : ¬ ((!true && !SOL_AUTO_CREATE_ATA) = true))]
    repeat' split
    all_goals first
      | (exfalso; omega)
      | simp [splTransferAmounts]
  · intro env addr tb gp nb est hbal htb hgp hnb hest
    have hunf : depositAllUsdtEvm env addr =
        (if nb < (est + Int.tdiv est 5) * gp + 2000000000000000 then
          ((.error "Not enough ETH to pay ERC-20 transfer gas" : Except String String),
            ([] : List Effect))
        else
          match env.writeContract with
          | .error e =>
            (.error e, [.erc20TransferCall EVM_USDT_TOKEN_ADDRESS EVM_DEPOSIT_ADDRESS tb])
          | .ok h =>
            (.ok h, [.erc20TransferCall EVM_USDT_TOKEN_ADDRESS EVM_DEPOSIT_ADDRESS tb])) := by
      unfold depositAllUsdtEvm
      simp only [hbal, hgp, hnb]
      rw [if_neg (by omega : ¬ tb ≤ 0), hest]
      rfl
    rw [hunf]
    constructor
    · intro hlt
      rw [if_pos hlt]
    · intro hge
      rw [if_neg (by omega : ¬ nb < (est + Int.tdiv est 5) * gp + 2000000000000000)]
      rcases env.writeContract with e | h <;> simp [erc20TransferCalls]

def usdtEvmEnvW : EvmEnv :=
  { evmEnvW with estimateContractGas := .ok 60000 }

/-- Witness for the amended C4 at a concrete SPL environment (token balance
1000000) and a concrete ERC-20 environment (balance 1000000, estimate
60000, gas price 10 gwei, native balance 5 ETH). -/
theorem usdt_amounts_amended_witness :
    (ensureProviderAndKey solEnvW none = .ok (provW, "Visitor111")) ∧
    ((retry solEnvW.getTokenAccountBalance 2).1 = .ok 1000000) ∧
    ((1 : Int) < 1000000) ∧
    (solEnvW.getDestAtaInfo = .ok true) ∧
    (splTransferAmounts (depositAllUsdtSol solEnvW none).2 =
      [(Ata.mk SOL_USDT_MINT SOL_DEPOSIT_ADDRESS, 1000000 - 1)]) ∧
    ((usdtEvmEnvW.readBalanceOf = .ok 1000000) ∧
      ((0 : Int) < 1000000) ∧
      (effectiveGasPrice usdtEvmEnvW = .ok 10000000000) ∧
      (usdtEvmEnvW.getBalance = .ok 5000000000000000000) ∧
      ((60000 + Int.tdiv 60000 5) * 10000000000 + 2000000000000000 ≤
        (5000000000000000000 : Int)) ∧
      erc20TransferCalls (depositAllUsdtEvm usdtEvmEnvW "0xfrom").2 =
        [(EVM_DEPOSIT_ADDRESS, 1000000)]) := by
  refine ⟨rfl, rfl, by decide, rfl, ?_, rfl, by decide, rfl, rfl, by decide, ?_⟩
  · exact usdt_amounts_amended.1 solEnvW none provW "Visitor111" 1000000 rfl rfl
      (by decide) rfl
  · exact (usdt_amounts_amended.2 usdtEvmEnvW "0xfrom" 1000000 10000000000
      5000000000000000000 60000 rfl (by decide) rfl rfl rfl).2 (by decide)

/-! ## C7 (corrected) -/

def isAlertAct : UiAct → Bool
  | .alertAct _ => true
  | _ => false

/-- Counterexample to C7: when `depositAllSol` rejects with message "boom",
the Solana section's `onSol` handler (address connected) records the error
via `setStatus` only — no alert is raised; likewise `onUsdt`.  So those
errors are not surfaced as alerts. -/
theorem section_handlers_no_alert_cex :
    sectionOnSol "Visitor111" (.error "boom") = [.statusAct "boom"] ∧
    (sectionOnSol "Visitor111" (.error "boom")).all (fun a => !isAlertAct a) = true ∧
    sectionOnUsdt "Visitor111" (.error "boom") = [.statusAct "boom"] ∧
    (sectionOnUsdt "Visitor111" (.error "boom")).all (fun a => !isAlertAct a) = true := by
  refine ⟨by decide, by decide, by decide, by decide⟩

/-- C7 as amended: the banner handlers catch every rejection and surface it
as an alert with the error's (non-empty) message, and the rejection does
not propagate (the handlers are total); the Solana section's `onSol` and
`onUsdt` handlers also catch every rejection, but record the message in the
component's status state via `setStatus` instead of alerting. -/
theorem handlers_error_surfacing_amended :
    (∀ m : String, m ≠ "" → onBannerConnectClick (.error m) = [.alertAct m]) ∧
    (∀ m : String, m ≠ "" → onBannerSniperClick (.error m) = [.alertAct m]) ∧
    (∀ r, onBannerSniperClick (.ok r) = [.notifyAct]) ∧
    (∀ (a m : String), a ≠ "" → m ≠ "" → sectionOnSol a (.error m) = [.statusAct m]) ∧
    (∀ (a m : String), a ≠ "" → m ≠ "" → sectionOnUsdt a (.error m) = [.statusAct m]) := by
  refine ⟨?_, ?_, ?_, ?_, ?_⟩
  · intro m hm
    simp [onBannerConnectClick, jsOrElse, hm]
  · intro m hm
    simp [onBannerSniperClick, jsOrElse, hm]
  · intro r
    rfl
  · intro a m ha hm
    simp [sectionOnSol, jsOrElse, ha, hm]
  · intro a m ha hm
    simp [sectionOnUsdt, jsOrElse, ha, hm]

/-- Witness for the amended C7 at concrete messages. -/
theorem handlers_error_surfacing_amended_witness :
    (("boom" : String) ≠ "") ∧
    (onBannerConnectClick (.error "boom") = [.alertAct "boom"]) ∧
    (onBannerSniperClick (.error "boom") = [.alertAct "boom"]) ∧
    (onBannerSniperClick (.ok (.solR "sig1" "Visitor111")) = [.notifyAct]) ∧
    (sectionOnSol "Visitor111" (.error "boom") = [.statusAct "boom"]) ∧
    (sectionOnUsdt "Visitor111" (.error "boom") = [.statusAct "boom"]) :=
  ⟨by decide,
    handlers_error_surfacing_amended.1 "boom" (by decide),
    handlers_error_surfacing_amended.2.1 "boom" (by decide),
    handlers_error_surfacing_amended.2.2.1 (.solR "sig1" "Visitor111"),
    handlers_error_surfacing_amended.2.2.2.1 "Visitor111" "boom" (by decide) (by decide),
    handlers_error_surfacing_amended.2.2.2.2 "Visitor111" "boom" (by decide) (by decide)⟩

/-! ## C5 -/

/-- `depositAllEth` with the gas price and balance reads resolved. -/
theorem depositAllEth_reduce (env : EvmEnv) (addr : String) (b p : Int)
    (hgp : effectiveGasPrice env = .ok p)
    (hbal : env.getBalance = .ok b) :
    depositAllEth env addr =
      (if b ≤ 21000 * p + 2000000000000000 then
        ((.error "Not enough ETH to cover gas" : Except String String), ([] : List Effect))
      else if b - 21000 * p - 2000000000000000 ≤ 0 then
        (.error "Not enough ETH to cover gas", [])
      else
        match env.sendTransaction with
        | .error e =>
          (.error e, [.evmSendRequest EVM_DEPOSIT_ADDRESS (b - 21000 * p - 2000000000000000)])
        | .ok h =>
          (.ok h, [.evmSendRequest EVM_DEPOSIT_ADDRESS (b - 21000 * p - 2000000000000000),
            .evmBroadcast EVM_DEPOSIT_ADDRESS (b - 21000 * p - 2000000000000000)])) := by
  unfold depositAllEth
  rw [hgp, hbal]
  rfl

/-- The trace of `depositAllEth` is empty or a send request to
`EVM_DEPOSIT_ADDRESS`, optionally followed by its broadcast. -/
theorem depositAllEth_trace_shape (env : EvmEnv) (addr : String) :
    (depositAllEth env addr).2 = [] ∨
    ∃ v, (depositAllEth env addr).2 = [.evmSendRequest EVM_DEPOSIT_ADDRESS v] ∨
      (depositAllEth env addr).2 =
        [.evmSendRequest EVM_DEPOSIT_ADDRESS v, .evmBroadcast EVM_DEPOSIT_ADDRESS v] := by
  rcases hgp : effectiveGasPrice env with e | gp
  · have h : depositAllEth env addr = (.error e, []) := by
      unfold depositAllEth
      rw [hgp]
      rfl
    rw [h]
    exact Or.inl rfl
  · rcases hbal : env.getBalance with e | bal
    · have h : depositAllEth env addr = (.error e, []) := by
        unfold depositAllEth
        rw [hgp, hbal]
        rfl
      rw [h]
      exact Or.inl rfl
    · rw [depositAllEth_reduce env addr bal gp hgp hbal]
      by_cases h1 : bal ≤ 21000 * gp + 2000000000000000
      · rw [if_pos h1]
        exact Or.inl rfl
      · rw [if_neg h1, if_neg (by omega : ¬ bal - 21000 * gp - 2000000000000000 ≤ 0)]
        rcases env.sendTransaction with e | h
        · exact Or.inr ⟨_, Or.inl rfl⟩
        · exact Or.inr ⟨_, Or.inr rfl⟩

theorem depositAllSol_no_tags (env : SolEnv) (pk : Option String) :
    branchTags (depositAllSol env pk).2 = [] := by
  rcases depositAllSol_trace_shape env pk with h | ⟨k, l, h | h⟩ <;>
    rw [h] <;> simp [branchTags]

theorem depositAllEth_no_tags (env : EvmEnv) (addr : String) :
    branchTags (depositAllEth env addr).2 = [] := by
  rcases depositAllEth_trace_shape env addr with h | ⟨v, h | h⟩ <;>
    rw [h] <;> simp [branchTags]

/-- Each entry of the Solana branch contributes exactly one `.solTag`. -/
theorem trySolanaBranch_tags (env : AutoEnv) :
    branchTags (trySolanaBranch env).2 = [.solTag] := by
  unfold trySolanaBranch
  rcases hap : env.sol.provider with _ | p
  · simp [branchTags]
  · rcases hs : solConnectStage p with e | pk
    · simp [hs, branchTags]
    · rcases hdep : depositAllSol env.sol (some pk) with ⟨res, t⟩
      have hnt : branchTags t = [] := by
        have h := depositAllSol_no_tags env.sol (some pk)
        rw [hdep] at h
        exact h
      simp only [branchTags] at hnt
      rcases res with e | r <;> simp [hs, hdep, branchTags, hnt]

/-- Each entry of the EVM branch contributes exactly one `.evmTag`. -/
theorem tryEvmBranch_tags (env : AutoEnv) :
    branchTags (tryEvmBranch env).2 = [.evmTag] := by
  unfold tryEvmBranch
  rcases hp : env.ethereumPresent with _ | _
  · simp [hp, branchTags]
  · rcases ha : env.ethAccounts.head? with _ | fromA
    · simp [hp, ha, branchTags]
    · rcases hdep : depositAllEth env.evm fromA with ⟨res, t⟩
      have hnt : branchTags t = [] := by
        have h := depositAllEth_no_tags env.evm fromA
        rw [hdep] at h
        exact h
      simp only [branchTags] at hnt
      rcases res with e | r <;> simp [hp, ha, hdep, branchTags, hnt]

/-- The gas-error test as the claim words it: the EVM error message
contains 'Not enough ETH to cover gas', or lowercased contains
'not enough eth', 'insufficient funds', or 'gas'. -/
def gasLikeSpec (msg : String) : Bool :=
  jsIncludes msg "Not enough ETH to cover gas" ||
  jsIncludes (jsToLower msg) "not enough eth" ||
  jsIncludes (jsToLower msg) "insufficient funds" ||
  jsIncludes (jsToLower msg) "gas"

theorem gasLikeSpec_eq_isGasErr (m : String) : gasLikeSpec m = isGasErr m := rfl

/-- The routing the claim describes, as a function of whether the Solana
provider looks usable and of the two branches' outcomes: Solana first when
usable; on its failure (or no usable provider) EVM; on an EVM error that
looks gas-related exactly one final Solana attempt (whose failure yields
the combined 'EVM failed: ...' error), otherwise the EVM error is rethrown
as 'EVM deposit failed: ...'. -/
def routeSpec (solUsable : Bool) (solRes evmRes : Except String SniperResult) :
    Except String SniperResult × List BranchTag :=
  if solUsable then
    match solRes with
    | .ok r => (.ok r, [.solTag])
    | .error _ =>
      match evmRes with
      | .ok r => (.ok r, [.solTag, .evmTag])
      | .error m =>
        if gasLikeSpec m then
          match solRes with
          | .ok r => (.ok r, [.solTag, .evmTag, .solTag])
          | .error m2 =>
            (.error ("EVM failed: " ++ m ++ ". Solana fallback failed: " ++ m2),
              [.solTag, .evmTag, .solTag])
        else (.error ("EVM deposit failed: " ++ m), [.solTag, .evmTag])
  else
    match evmRes with
    | .ok r => (.ok r, [.evmTag])
    | .error m =>
      if gasLikeSpec m then
        match solRes with
        | .ok r => (.ok r, [.evmTag, .solTag])
        | .error m2 =>
          (.error ("EVM failed: " ++ m ++ ". Solana fallback failed: " ++ m2),
            [.evmTag, .solTag])
      else (.error ("EVM deposit failed: " ++ m), [.evmTag])

/-- C5: with no preferred route, `depositMaxAuto`'s result and its sequence
of branch attempts coincide with `routeSpec` applied to the usability test
`solProvUsable` (provider exposing publicKey, isConnected, or connect) and
the two branch outcomes: Solana is attempted first exactly when usable; the
EVM branch follows a Solana failure or absence; exactly one final Solana
fallback happens exactly when the EVM error message is gas-like, and
otherwise the EVM error is rethrown (prefixed 'EVM deposit failed: '). -/
theorem depositMaxAuto_routing (env : AutoEnv) :
    (depositMaxAuto env none).1 =
      (routeSpec (solProvUsable env) (trySolanaBranch env).1 (tryEvmBranch env).1).1 ∧
    branchTags (depositMaxAuto env none).2 =
      (routeSpec (solProvUsable env) (trySolanaBranch env).1 (tryEvmBranch env).1).2 := by
  have hsolt := trySolanaBranch_tags env
  have hevmt := tryEvmBranch_tags env
  unfold depositMaxAuto routeSpec
  rcases hu : solProvUsable env with _ | _
  · -- provider not usable: EVM directly
    simp only [Bool.false_eq_true, if_false]
    rcases hevm : tryEvmBranch env with ⟨er, et⟩
    rcases er with m | r
    · rw [hevm] at hevmt
      rcases hgas : isGasErr m with _ | _
      · have hgs : gasLikeSpec m = false := by rw [gasLikeSpec_eq_isGasErr, hgas]
        simp [hgas, hgs, branchTags]
        simpa [branchTags] using hevmt
      · rw [← gasLikeSpec_eq_isGasErr] at hgas
        rcases hsol : trySolanaBranch env with ⟨sr, st⟩
        rw [hsol] at hsolt
        rcases sr with m2 | r2 <;>
          simp_all [gasLikeSpec_eq_isGasErr, branchTags, List.filterMap_append]
    · rw [hevm] at hevmt
      simp_all [branchTags]
  · -- provider usable: Solana first
    simp only [if_true]
    rcases hsol : trySolanaBranch env with ⟨sr, st⟩
    rw [hsol] at hsolt
    rcases sr with m1 | r1
    · -- Solana failed, EVM next
      rcases hevm : tryEvmBranch env with ⟨er, et⟩
      rw [hevm] at hevmt
      rcases er with m | r
      · rcases hgas : isGasErr m with _ | _
        · rw [← gasLikeSpec_eq_isGasErr] at hgas
          simp_all [gasLikeSpec_eq_isGasErr, branchTags, List.filterMap_append]
        · rw [← gasLikeSpec_eq_isGasErr] at hgas
          simp_all [gasLikeSpec_eq_isGasErr, branchTags, List.filterMap_append]
      · simp_all [branchTags, List.filterMap_append]
    · simp_all [branchTags]

/-! ## C8 (corrected) -/

theorem depositAllSol_counts (env : SolEnv) (pk : Option String) :
    evmBroadcastCount (depositAllSol env pk).2 = 0 ∧
    solBroadcastCount (depositAllSol env pk).2 ≤ 1 := by
  rcases depositAllSol_trace_shape env pk with h | ⟨k, l, h | h⟩ <;> rw [h] <;>
    simp [evmBroadcastCount, solBroadcastCount]

theorem depositAllEth_counts (env : EvmEnv) (addr : String) :
    solBroadcastCount (depositAllEth env addr).2 = 0 ∧
    evmBroadcastCount (depositAllEth env addr).2 ≤ 1 := by
  rcases depositAllEth_trace_shape env addr with h | ⟨v, h | h⟩ <;> rw [h] <;>
    simp [evmBroadcastCount, solBroadcastCount]

/-- A Solana branch attempt broadcasts no EVM transaction and at most one
Solana transaction. -/
theorem trySolanaBranch_counts (env : AutoEnv) :
    evmBroadcastCount (trySolanaBranch env).2 = 0 ∧
    solBroadcastCount (trySolanaBranch env).2 ≤ 1 := by
  unfold trySolanaBranch
  rcases hap : env.sol.provider with _ | p
  · simp [evmBroadcastCount, solBroadcastCount]
  · rcases hs : solConnectStage p with e | pk
    · simp [hs, evmBroadcastCount, solBroadcastCount]
    · rcases hdep : depositAllSol env.sol (some pk) with ⟨res, t⟩
      have hc := depositAllSol_counts env.sol (some pk)
      rw [hdep] at hc
      simp only [evmBroadcastCount, solBroadcastCount] at hc
      rcases res with e | r
      · constructor
        · simpa [hs, hdep, evmBroadcastCount] using hc.1
        · simpa [hs, hdep, solBroadcastCount] using hc.2
      · constructor
        · simpa [hs, hdep, evmBroadcastCount, List.filter_append] using hc.1
        · simpa [hs, hdep, solBroadcastCount, List.filter_append] using hc.2

/-- An EVM branch attempt broadcasts no Solana transaction and at most one
EVM transaction. -/
theorem tryEvmBranch_counts (env : AutoEnv) :
    solBroadcastCount (tryEvmBranch env).2 = 0 ∧
    evmBroadcastCount (tryEvmBranch env).2 ≤ 1 := by
  unfold tryEvmBranch
  rcases hp : env.ethereumPresent with _ | _
  · simp [hp, evmBroadcastCount, solBroadcastCount]
  · rcases ha : env.ethAccounts.head? with _ | fromA
    · simp [hp, ha, evmBroadcastCount, solBroadcastCount]
    · rcases hdep : depositAllEth env.evm fromA with ⟨res, t⟩
      have hc := depositAllEth_counts env.evm fromA
      rw [hdep] at hc
      simp only [evmBroadcastCount, solBroadcastCount] at hc
      rcases res with e | r
      · constructor
        · simpa [hp, ha, hdep, solBroadcastCount] using hc.1
        · simpa [hp, ha, hdep, evmBroadcastCount] using hc.2
      · constructor
        · simpa [hp, ha, hdep, solBroadcastCount, List.filter_append] using hc.1
        · simpa [hp, ha, hdep, evmBroadcastCount, List.filter_append] using hc.2

/-- C8 as amended: the branch attempts of `depositMaxAuto` (no preferred
route) run strictly sequentially — the trace decomposes into a Solana
segment, an EVM segment, and a Solana-fallback segment, and each segment
broadcasts at most one transaction on its own chain and none on the other;
the EVM segment is non-trivial only when there was no usable Solana
provider or the Solana attempt threw, and the fallback segment only when
the EVM branch threw a gas-like error.  (A Solana attempt can throw after
broadcasting — when the wallet's send succeeds but the returned signature
shape is unsupported — so a single call can still broadcast on both chains;
see the counterexample.) -/
theorem depositMaxAuto_broadcast_structure (env : AutoEnv) :
    ∃ t1 t2 t3, (depositMaxAuto env none).2 = t1 ++ t2 ++ t3 ∧
      evmBroadcastCount t1 = 0 ∧ solBroadcastCount t1 ≤ 1 ∧
      solBroadcastCount t2 = 0 ∧ evmBroadcastCount t2 ≤ 1 ∧
      evmBroadcastCount t3 = 0 ∧ solBroadcastCount t3 ≤ 1 ∧
      (t2 ≠ [] → solProvUsable env = false ∨ ∃ m, (trySolanaBranch env).1 = .error m) ∧
      (t3 ≠ [] → ∃ m, (tryEvmBranch env).1 = .error m ∧ isGasErr m = true) := by
  unfold depositMaxAuto
  rcases hu : solProvUsable env with _ | _
  · rcases hevm : tryEvmBranch env with ⟨er, et⟩
    have hec := tryEvmBranch_counts env
    rw [hevm] at hec
    rcases er with m | r
    · rcases hgas : isGasErr m with _ | _
      · refine ⟨[], et, [], ?_, by simp [evmBroadcastCount],
          by simp [solBroadcastCount], hec.1, hec.2, by simp [evmBroadcastCount],
          by simp [solBroadcastCount], fun _ => Or.inl rfl, fun h3 => absurd rfl h3⟩
        simp [hevm, hgas]
      · rcases hsol : trySolanaBranch env with ⟨sr, st⟩
        have hsc := trySolanaBranch_counts env
        rw [hsol] at hsc
        rcases sr with m2 | r2
        · refine ⟨[], et, st, ?_, by simp [evmBroadcastCount],
            by simp [solBroadcastCount], hec.1, hec.2, hsc.1, hsc.2,
            fun _ => Or.inl rfl, fun _ => ⟨m, rfl, hgas⟩⟩
          simp [hevm, hgas, hsol]
        · refine ⟨[], et, st, ?_, by simp [evmBroadcastCount],
            by simp [solBroadcastCount], hec.1, hec.2, hsc.1, hsc.2,
            fun _ => Or.inl rfl, fun _ => ⟨m, rfl, hgas⟩⟩
          simp [hevm, hgas, hsol]
    · refine ⟨[], et, [], ?_, by simp [evmBroadcastCount],
        by simp [solBroadcastCount], hec.1, hec.2, by simp [evmBroadcastCount],
        by simp [solBroadcastCount], fun _ => Or.inl rfl, fun h3 => absurd rfl h3⟩
      simp [hevm]
  · rcases hsol : trySolanaBranch env with ⟨sr, st⟩
    have hsc := trySolanaBranch_counts env
    rw [hsol] at hsc
    rcases sr with m1 | r1
    · rcases hevm : tryEvmBranch env with ⟨er, et⟩
      have hec := tryEvmBranch_counts env
      rw [hevm] at hec
      rcases er with m | r
      · rcases hgas : isGasErr m with _ | _
        · refine ⟨st, et, [], ?_, hsc.1, hsc.2, hec.1, hec.2,
            by simp [evmBroadcastCount], by simp [solBroadcastCount],
            fun _ => Or.inr ⟨m1, rfl⟩, fun h3 => absurd rfl h3⟩
          simp [hsol, hevm, hgas]
        · refine ⟨st, et, st, ?_, hsc.1, hsc.2, hec.1, hec.2, hsc.1, hsc.2,
            fun _ => Or.inr ⟨m1, rfl⟩, fun _ => ⟨m, rfl, hgas⟩⟩
          simp [hsol, hevm, hgas]
      · refine ⟨st, et, [], ?_, hsc.1, hsc.2, hec.1, hec.2,
          by simp [evmBroadcastCount], by simp [solBroadcastCount],
          fun _ => Or.inr ⟨m1, rfl⟩, fun h3 => absurd rfl h3⟩
        simp [hsol, hevm]
    · refine ⟨st, [], [], ?_, hsc.1, hsc.2, by simp [solBroadcastCount],
        by simp [evmBroadcastCount], by simp [evmBroadcastCount],
        by simp [solBroadcastCount], fun h2 => absurd rfl h2, fun h3 => absurd rfl h3⟩
      simp [hsol]

def provCex : SolProvider :=
  { publicKey := some "Visitor111", isConnected := true, hasConnect := true,
    trustedConnectKey := none, interactiveConnectKey := none,
    connectPlainOutcome := .ok (), publicKeyAfterConnect := some "Visitor111",
    signAndSendOutcome := some (.ok .badTruthy),
    signTransactionOutcome := none }

def solEnvCex : SolEnv := { solEnvW with provider := some provCex }

def autoEnvCex : AutoEnv :=
  { sol := solEnvCex, ethereumPresent := true, ethAccounts := ["0xfrom"],
    chainId := 1, evm := evmEnvW }

/-- Counterexample to C8 as stated: in a concrete environment where the
Solana wallet's `signAndSendTransaction` succeeds (broadcasting the
transaction) but resolves to a value from which no signature can be
extracted, `depositAllSol` throws after the broadcast, the Solana attempt
is treated as failed, and the EVM branch then broadcasts a second
transaction — a single `depositMaxAuto` call sends both a Solana and an
EVM transaction. -/
theorem depositMaxAuto_double_broadcast_cex :
    1 ≤ solBroadcastCount (depositMaxAuto autoEnvCex none).2 ∧
    1 ≤ evmBroadcastCount (depositMaxAuto autoEnvCex none).2 := by
  refine ⟨by decide, by decide⟩

end Mintpeppe
